import Mathlib

/-!
Shallow embedding of the chat backend's real-time core:
the connection registry, group model and socket event handlers of
`src/services/socketService.js` and the Group schema (`models/Group.js`).

Identities, group ids and message contents are strings; connection
handles (socket ids) are naturals.  The socket.io room mechanism is
modelled as a subscription set of (socket, roomName) pairs; the
`userSockets` map of the service is an association list with
last-write-wins `set` and key-wide `delete`, exactly as a JS `Map`
keyed by user id behaves in the source.  Each event handler is a pure
function from server state and event payload to the new state and the
ordered list of actions (persist, emit) the handler performs.
Fallible persistence (`message.save()`) is modelled by a `saveOk`
flag: `false` makes the handler take its catch branch.
-/

namespace ChatApp

abbrev UserId := String
abbrev SocketId := Nat
abbrev GroupId := String

/-- Group record, mirroring `groupSchema` of the Group model:
name, description, creator, members, createdAt (plus its document id). -/
structure Group where
  gid : GroupId
  name : String
  description : String
  creator : UserId
  members : List UserId
  createdAt : Nat
deriving Repr, DecidableEq

/-- `groupSchema.methods.isMember`: `this.members.some(m => m.equals(userId))`. -/
def Group.isMember (g : Group) (u : UserId) : Bool :=
  g.members.any (fun m => m == u)

/-- `groupSchema.methods.addMember`: push `userId` unless already a member. -/
def Group.addMember (g : Group) (u : UserId) : Group :=
  if g.isMember u then g else { g with members := g.members ++ [u] }

/-- `groupSchema.methods.removeMember`:
`this.members = this.members.filter(m => !m.equals(userId))`. -/
def Group.removeMember (g : Group) (u : UserId) : Group :=
  { g with members := g.members.filter (fun m => m != u) }

/-- Persisted message record (`Message` model): exactly one of
recipient (direct) or group is set. -/
structure MessageRec where
  sender : UserId
  recipient : Option UserId
  group : Option GroupId
  content : String
deriving Repr, DecidableEq

/-- Events emitted by the service to clients. -/
inductive OutEvent where
  | errorMsg (msg : String)
  | messageSent
  | directMessage (m : MessageRec)
  | groupMessage (m : MessageRec)
  | userStatus (uid : UserId) (status : String)
  | groupUpdate (kind : String) (gid : GroupId) (uid : UserId)
  | groupJoined (gid : GroupId) (name : String)
  | groupLeft (gid : GroupId) (name : String)
  | groupDeleted (gid : GroupId)
  | typingEv (uid : UserId) (flag : Option Bool)
  | groupTypingEv (uid : UserId) (gid : GroupId) (flag : Option Bool)
deriving Repr, DecidableEq

/-- Side effects a handler performs, in program order:
`persist` is `message.save()`; `emitToSocket` is `socket.emit`;
`emitToRoom` is `io.to(room).emit`; `emitToRoomExceptSelf` is
`socket.to(room).emit` (room minus the sending socket);
`emitGlobal` is `io.emit`. -/
inductive Action where
  | persist (m : MessageRec)
  | emitToSocket (s : SocketId) (e : OutEvent)
  | emitToRoom (room : String) (e : OutEvent)
  | emitToRoomExceptSelf (room : String) (s : SocketId) (e : OutEvent)
  | emitGlobal (e : OutEvent)
deriving Repr, DecidableEq

def Action.isPersist : Action → Bool
  | .persist _ => true
  | _ => false

/-- Server state: the `userSockets` map, the socket.io room
subscriptions, and the external store (groups, messages, users). -/
structure ServerState where
  userSockets : List (UserId × SocketId)
  subscriptions : List (SocketId × String)
  groups : List Group
  messages : List MessageRec
  users : List UserId
deriving Repr, DecidableEq

/-- JS `Map.set`: last write wins, one entry per key. -/
def mapSet (k : UserId) (v : SocketId) (l : List (UserId × SocketId)) :
    List (UserId × SocketId) :=
  (k, v) :: l.filter (fun p => p.1 != k)

/-- JS `Map.delete`. -/
def mapDelete (k : UserId) (l : List (UserId × SocketId)) :
    List (UserId × SocketId) :=
  l.filter (fun p => p.1 != k)

/-- JS `Map.has`. -/
def mapHas (k : UserId) (l : List (UserId × SocketId)) : Bool :=
  l.any (fun p => p.1 == k)

def userRoom (u : UserId) : String := "user:" ++ u

def groupRoom (g : GroupId) : String := "group:" ++ g

/-- `Group.findById` over the store. -/
def findGroup (st : ServerState) (gid : GroupId) : Option Group :=
  st.groups.find? (fun g => g.gid == gid)

/-- Write back a mutated group document (`group.save()`). -/
def updateGroup (st : ServerState) (g : Group) : ServerState :=
  { st with groups := st.groups.map (fun h => if h.gid == g.gid then g else h) }

/-- `Group.findByIdAndDelete`. -/
def deleteGroup (st : ServerState) (gid : GroupId) : ServerState :=
  { st with groups := st.groups.filter (fun h => h.gid != gid) }

/-- Sockets currently subscribed to a room. -/
def roomSubscribers (st : ServerState) (room : String) : List SocketId :=
  (st.subscriptions.filter (fun p => p.2 == room)).map (fun p => p.1)

/-- Concrete delivery set of an action, resolved against the current
subscription and registry state. -/
def resolveTargets (st : ServerState) : Action → List SocketId
  | .persist _ => []
  | .emitToSocket s _ => [s]
  | .emitToRoom room _ => roomSubscribers st room
  | .emitToRoomExceptSelf room s _ =>
      (roomSubscribers st room).filter (fun t => t != s)
  | .emitGlobal _ => st.userSockets.map (fun p => p.2)

/-- `joinUserGroups`: subscribe a fresh socket to the room of every
group its user belongs to. -/
def joinUserGroups (st : ServerState) (u : UserId) (s : SocketId) :
    List (SocketId × String) :=
  (st.groups.filter (fun g => g.isMember u)).map (fun g => (s, groupRoom g.gid))

/-- The `io.on('connection')` body: `userSockets.set(userId, socket.id)`,
join the personal room, join all of the user's group rooms, and
broadcast the online status globally. -/
def handleConnect (st : ServerState) (u : UserId) (s : SocketId) :
    ServerState × List Action :=
  ({ st with
      userSockets := mapSet u s st.userSockets,
      subscriptions := st.subscriptions ++ [(s, userRoom u)] ++ joinUserGroups st u s },
   [.emitGlobal (.userStatus u "online")])

/-- The `socket.on('disconnect')` body: `userSockets.delete(userId)` and a
global offline broadcast.  The transport drops the closed socket from all
of its rooms. -/
def handleDisconnect (st : ServerState) (u : UserId) (s : SocketId) :
    ServerState × List Action :=
  ({ st with
      userSockets := mapDelete u st.userSockets,
      subscriptions := st.subscriptions.filter (fun p => p.1 != s) },
   [.emitGlobal (.userStatus u "offline")])

/-- `userSockets.has(userId)`: the service's only notion of "online". -/
def isOnline (st : ServerState) (u : UserId) : Bool :=
  mapHas u st.userSockets

/-- Connection-level event for registry traces. -/
inductive ConnEvent where
  | conn (u : UserId) (s : SocketId)
  | disc (u : UserId) (s : SocketId)
deriving Repr, DecidableEq

def stepConn (st : ServerState) : ConnEvent → ServerState × List Action
  | .conn u s => handleConnect st u s
  | .disc u s => handleDisconnect st u s

def runConn (st : ServerState) : List ConnEvent → ServerState × List Action
  | [] => (st, [])
  | e :: es =>
      let r1 := stepConn st e
      let r2 := runConn r1.1 es
      (r2.1, r1.2 ++ r2.2)

/-- Ghost transcript of which transport connections are open after a
trace: a `conn` opens one, the matching `disc` closes it. -/
def openAfter (l : List ConnEvent) : List (UserId × SocketId) :=
  l.foldl
    (fun acc e =>
      match e with
      | .conn u s => acc ++ [(u, s)]
      | .disc u s => acc.filter (fun p => p != (u, s)))
    []

/-- The `socket.on('direct_message')` body.  Falsy-field validation, then
save (fallible, modelled by `saveOk`), fan-out to the recipient's personal
room only if the registry has the recipient, then the sender ack.
No recipient-existence check is performed. -/
def handleDirectMessage (st : ServerState) (uid : UserId) (sid : SocketId)
    (recipientId contentOpt : Option String) (saveOk : Bool) :
    ServerState × List Action :=
  match recipientId, contentOpt with
  | some r, some c =>
      if r.isEmpty || c.isEmpty then
        (st, [.emitToSocket sid (.errorMsg "Recipient ID and content are required")])
      else if saveOk then
        let m : MessageRec :=
          { sender := uid, recipient := some r, group := none, content := c }
        let fan :=
          if mapHas r st.userSockets then
            [Action.emitToRoom (userRoom r) (.directMessage m)]
          else []
        ({ st with messages := st.messages ++ [m] },
         Action.persist m :: fan ++ [.emitToSocket sid .messageSent])
      else
        (st, [.emitToSocket sid (.errorMsg "Failed to send message")])
  | _, _ =>
      (st, [.emitToSocket sid (.errorMsg "Recipient ID and content are required")])

/-- The `socket.on('group_message')` body: validate fields, look the group
up, membership check, save (fallible), room fan-out, sender ack. -/
def handleGroupMessage (st : ServerState) (uid : UserId) (sid : SocketId)
    (groupIdOpt contentOpt : Option String) (saveOk : Bool) :
    ServerState × List Action :=
  match groupIdOpt, contentOpt with
  | some gid, some c =>
      if gid.isEmpty || c.isEmpty then
        (st, [.emitToSocket sid (.errorMsg "Group ID and content are required")])
      else
        match findGroup st gid with
        | none => (st, [.emitToSocket sid (.errorMsg "Group not found")])
        | some g =>
            if g.isMember uid then
              if saveOk then
                let m : MessageRec :=
                  { sender := uid, recipient := none, group := some gid, content := c }
                ({ st with messages := st.messages ++ [m] },
                 [Action.persist m,
                  .emitToRoom (groupRoom gid) (.groupMessage m),
                  .emitToSocket sid .messageSent])
              else
                (st, [.emitToSocket sid (.errorMsg "Failed to send group message")])
            else
              (st, [.emitToSocket sid (.errorMsg "You are not a member of this group")])
  | _, _ =>
      (st, [.emitToSocket sid (.errorMsg "Group ID and content are required")])

/-- The `socket.on('join_group')` body: validate, look up, reject existing
members, otherwise `group.addMember` then `socket.join` for the issuing
socket only, room broadcast and sender confirmation. -/
def handleJoinGroup (st : ServerState) (uid : UserId) (sid : SocketId)
    (groupIdOpt : Option String) : ServerState × List Action :=
  match groupIdOpt with
  | some gid =>
      if gid.isEmpty then
        (st, [.emitToSocket sid (.errorMsg "Group ID is required")])
      else
        match findGroup st gid with
        | none => (st, [.emitToSocket sid (.errorMsg "Group not found")])
        | some g =>
            if g.isMember uid then
              (st, [.emitToSocket sid (.errorMsg "You are already a member of this group")])
            else
              let st1 := updateGroup st (g.addMember uid)
              ({ st1 with subscriptions := st1.subscriptions ++ [(sid, groupRoom gid)] },
               [.emitToRoom (groupRoom gid) (.groupUpdate "member_joined" gid uid),
                .emitToSocket sid (.groupJoined gid g.name)])
  | none => (st, [.emitToSocket sid (.errorMsg "Group ID is required")])

/-- The `socket.on('leave_group')` body: validate, look up, membership
check, creator guard, `group.removeMember` then `socket.leave`; if the
group became empty it is deleted and a global `group_deleted` broadcast
is emitted, otherwise the room is notified; finally the sender ack. -/
def handleLeaveGroup (st : ServerState) (uid : UserId) (sid : SocketId)
    (groupIdOpt : Option String) : ServerState × List Action :=
  match groupIdOpt with
  | some gid =>
      if gid.isEmpty then
        (st, [.emitToSocket sid (.errorMsg "Group ID is required")])
      else
        match findGroup st gid with
        | none => (st, [.emitToSocket sid (.errorMsg "Group not found")])
        | some g =>
            if g.isMember uid then
              if g.creator = uid ∧ g.members.length > 1 then
                (st, [.emitToSocket sid
                  (.errorMsg "Group creator cannot leave. Transfer ownership or delete the group.")])
              else
                let g1 := g.removeMember uid
                let st1 := updateGroup st g1
                let st2 := { st1 with
                  subscriptions :=
                    st1.subscriptions.filter (fun p => p != (sid, groupRoom gid)) }
                if g1.members.length = 0 then
                  (deleteGroup st2 gid,
                   [.emitGlobal (.groupDeleted gid),
                    .emitToSocket sid (.groupLeft gid g.name)])
                else
                  (st2,
                   [.emitToRoom (groupRoom gid) (.groupUpdate "member_left" gid uid),
                    .emitToSocket sid (.groupLeft gid g.name)])
            else
              (st, [.emitToSocket sid (.errorMsg "You are not a member of this group")])
  | none => (st, [.emitToSocket sid (.errorMsg "Group ID is required")])

/-- The `socket.on('typing')` body: forwarded to the recipient's personal
room when a recipient id is present (truthy), silently dropped otherwise;
the flag is forwarded unvalidated. -/
def handleTyping (st : ServerState) (uid : UserId) (sid : SocketId)
    (recipientIdOpt : Option String) (flag : Option Bool) :
    ServerState × List Action :=
  match recipientIdOpt with
  | some r =>
      if r.isEmpty then (st, [])
      else (st, [.emitToRoom (userRoom r) (.typingEv uid flag)])
  | none => (st, [])

/-- The `socket.on('group_typing')` body: forwarded to the group room
excluding the sending socket when a group id is present (truthy),
silently dropped otherwise; no membership check. -/
def handleGroupTyping (st : ServerState) (uid : UserId) (sid : SocketId)
    (groupIdOpt : Option String) (flag : Option Bool) :
    ServerState × List Action :=
  match groupIdOpt with
  | some gid =>
      if gid.isEmpty then (st, [])
      else (st, [.emitToRoomExceptSelf (groupRoom gid) sid (.groupTypingEv uid gid flag)])
  | none => (st, [])

end ChatApp

namespace ChatApp

theorem findGroup_gid {st : ServerState} {gid : GroupId} {g : Group}
    (h : findGroup st gid = some g) : g.gid = gid := by
  have h1 : st.groups.find? (fun x => x.gid == gid) = some g := h
  have h2 := List.find?_some h1
  simpa [beq_iff_eq] using h2

theorem find?_update_list (l : List Group) (k : GroupId) (g g1 : Group)
    (hg : g1.gid = g.gid)
    (hf : l.find? (fun x => x.gid == k) = some g) :
    (l.map (fun h => if h.gid == g1.gid then g1 else h)).find?
      (fun x => x.gid == k) = some g1 := by
  induction l with
  | nil => simp at hf
  | cons a t ih =>
    by_cases ha : a.gid = k
    · rw [List.find?_cons_of_pos _ (by simp [ha])] at hf
      have hag : a = g := by injection hf
      subst hag
      have hsame : (a.gid == g1.gid) = true := by simp [hg]
      simp only [List.map_cons, hsame, if_pos]
      rw [List.find?_cons_of_pos _ (by simp [hg, ha])]
    · rw [List.find?_cons_of_neg _ (by simp [ha])] at hf
      have hgk : g.gid = k := by
        have := List.find?_some hf
        simpa [beq_iff_eq] using this
      have hne : (a.gid == g1.gid) = false := by
        rw [hg, hgk]
        simpa [beq_iff_eq] using ha
      simp only [List.map_cons, hne]
      rw [if_neg (by simp [hne])]
      rw [List.find?_cons_of_neg _ (by simp [ha])]
      exact ih hf

theorem findGroup_updateGroup {st : ServerState} {k : GroupId} {g g1 : Group}
    (hf : findGroup st k = some g) (hg : g1.gid = g.gid) :
    findGroup (updateGroup st g1) k = some g1 :=
  find?_update_list st.groups k g g1 hg hf

theorem findGroup_deleteGroup (st : ServerState) (gid : GroupId) :
    findGroup (deleteGroup st gid) gid = none := by
  have hall : ∀ x ∈ st.groups.filter (fun h => h.gid != gid),
      ¬ ((fun x => x.gid == gid) x = true) := by
    intro x hx
    have := (List.mem_filter.mp hx).2
    simpa [bne] using this
  exact List.find?_eq_none.mpr hall

/-- Empty initial server state. -/
def st0 : ServerState := ⟨[], [], [], [], []⟩

/-- A group created by user `b` whose only member is `b`. -/
def groupB : Group := ⟨"g", "G", "d", "b", ["b"], 0⟩

/-- A store holding only `groupB` and user `b`, nobody connected. -/
def stB : ServerState := ⟨[], [], [groupB], [], ["b"]⟩

/-- User `u` opens two connections (sockets 1 and 2), then closes
socket 1 while socket 2 stays open. -/
def trC1 : List ConnEvent := [.conn "u" 1, .conn "u" 2, .disc "u" 1]

/-- C1: counterexample.  After the trace `trC1`, identity `u` still has
one open connection (socket 2), yet the registry entry is gone,
`isOnline u` is false, and the disconnect of the non-last socket 1
emitted a global offline event — contradicting the claimed invariant
that only closing the last connection removes the entry and that
`isOnline` is true whenever at least one connection is open. -/
theorem c1_registry_counterexample :
    openAfter trC1 = [("u", 2)] ∧
    isOnline (runConn st0 trC1).1 "u" = false ∧
    (runConn st0 trC1).2 =
      [.emitGlobal (.userStatus "u" "online"),
       .emitGlobal (.userStatus "u" "online"),
       .emitGlobal (.userStatus "u" "offline")] :=
  ⟨by decide, by decide, by decide⟩

/-- C1 (amended): the registry keeps at most one connection per identity
(last connect wins), so `isOnline u` is true right after any connect of
`u`, and ANY disconnect of a connection bound to `u` — last or not —
removes the entry, makes `isOnline u` false, and emits exactly one
global offline presence event. -/
theorem c1_registry_single_entry (st : ServerState) (u : UserId) (s : SocketId) :
    isOnline (handleConnect st u s).1 u = true ∧
    (handleConnect st u s).2 = [.emitGlobal (.userStatus u "online")] ∧
    ((handleConnect st u s).1.userSockets.filter (fun p => p.1 == u)) = [(u, s)] ∧
    isOnline (handleDisconnect st u s).1 u = false ∧
    (handleDisconnect st u s).2 = [.emitGlobal (.userStatus u "offline")] := by
  refine ⟨?_, rfl, ?_, ?_, rfl⟩
  · simp [isOnline, mapHas, handleConnect, mapSet]
  · simp [handleConnect, mapSet, List.filter_cons, List.filter_filter]
  · simp [isOnline, mapHas, mapDelete, handleDisconnect, List.any_eq_true,
      List.mem_filter]

/-- C2: a group message whose sender is not a member of the (existing)
target group yields exactly one error event, sent to the sender's own
socket; the state — in particular the message store — is unchanged and
no room fan-out action is produced. -/
theorem c2_group_message_nonmember (st : ServerState) (uid : UserId)
    (sid : SocketId) (gid c : String) (g : Group) (saveOk : Bool)
    (hgid : gid.isEmpty = false) (hc : c.isEmpty = false)
    (hfind : findGroup st gid = some g) (hm : g.isMember uid = false) :
    handleGroupMessage st uid sid (some gid) (some c) saveOk =
      (st, [.emitToSocket sid (.errorMsg "You are not a member of this group")]) := by
  simp [handleGroupMessage, hgid, hc, hfind, hm]

/-- C2 witness: user `u` (not a member of `groupB`) sends a group
message and only gets the membership error back. -/
theorem c2_group_message_nonmember_witness :
    findGroup stB "g" = some groupB ∧ groupB.isMember "u" = false ∧
    handleGroupMessage stB "u" 1 (some "g") (some "hi") true =
      (stB, [.emitToSocket 1 (.errorMsg "You are not a member of this group")]) :=
  ⟨by decide, by decide,
   c2_group_message_nonmember stB "u" 1 "g" "hi" groupB true
     (by decide) (by decide) (by decide) (by decide)⟩

/-- C10: `Group.removeMember u` changes only the members list: `u` is no
longer a member, the remaining members are exactly the original
non-`u` members in the same relative order (a sublist), all other
fields are unchanged, and when `u` was not a member the list is
unchanged. -/
theorem c10_removeMember_frame (g : Group) (u : UserId) :
    (g.removeMember u).members = g.members.filter (fun m => m != u) ∧
    (g.removeMember u).gid = g.gid ∧
    (g.removeMember u).name = g.name ∧
    (g.removeMember u).description = g.description ∧
    (g.removeMember u).creator = g.creator ∧
    (g.removeMember u).createdAt = g.createdAt ∧
    (g.removeMember u).isMember u = false ∧
    List.Sublist (g.removeMember u).members g.members ∧
    (∀ x, x ∈ g.members → x ≠ u → x ∈ (g.removeMember u).members) ∧
    (g.isMember u = false → (g.removeMember u).members = g.members) := by
  refine ⟨rfl, rfl, rfl, rfl, rfl, rfl, ?_, ?_, ?_, ?_⟩
  · simp [Group.isMember, Group.removeMember, List.any_eq_true, List.mem_filter]
  · exact List.filter_sublist g.members
  · intro x hx hne
    exact List.mem_filter.mpr ⟨hx, by simp [bne_iff_ne, hne]⟩
  · intro h
    refine List.filter_eq_self.mpr ?_
    intro a ha
    have h2 : g.members.any (fun m => m == u) = false := h
    rw [List.any_eq_false] at h2
    have hf : ¬ (a = u) := by simpa using h2 a ha
    simp [bne_iff_ne, hf]

/-- C10 witness: concrete instances of the frame property on `groupB`. -/
theorem c10_removeMember_frame_witness :
    (groupB.removeMember "b").members =
      groupB.members.filter (fun m => m != "b") ∧
    (groupB.removeMember "b").creator = groupB.creator ∧
    groupB.isMember "x" = false ∧
    (groupB.removeMember "x").members = groupB.members :=
  ⟨(c10_removeMember_frame groupB "b").1,
   (c10_removeMember_frame groupB "b").2.2.2.2.1,
   by decide,
   (c10_removeMember_frame groupB "x").2.2.2.2.2.2.2.2.2 (by decide)⟩

end ChatApp

namespace ChatApp

/-- C3: on both message paths, a failed persist produces exactly one
error event, sent to the sender's own socket, with the message store
untouched and no fan-out; on a successful persist the persist action is
the head of the handler's action list, so it precedes every emitted
fan-out and ack action. -/
theorem c3_persist_before_fanout (st : ServerState) (uid : UserId)
    (sid : SocketId) (r c gid : String) (g : Group)
    (hr : r.isEmpty = false) (hc : c.isEmpty = false)
    (hgid : gid.isEmpty = false) (hfind : findGroup st gid = some g)
    (hm : g.isMember uid = true) :
    handleDirectMessage st uid sid (some r) (some c) false =
      (st, [.emitToSocket sid (.errorMsg "Failed to send message")]) ∧
    handleGroupMessage st uid sid (some gid) (some c) false =
      (st, [.emitToSocket sid (.errorMsg "Failed to send group message")]) ∧
    (∃ m rest, handleDirectMessage st uid sid (some r) (some c) true =
        ({ st with messages := st.messages ++ [m] }, Action.persist m :: rest) ∧
        rest.all (fun a => ! a.isPersist) = true) ∧
    (∃ m rest, handleGroupMessage st uid sid (some gid) (some c) true =
        ({ st with messages := st.messages ++ [m] }, Action.persist m :: rest) ∧
        rest.all (fun a => ! a.isPersist) = true) := by
  refine ⟨?_, ?_, ?_, ?_⟩
  · simp [handleDirectMessage, hr, hc]
  · simp [handleGroupMessage, hgid, hc, hfind, hm]
  · refine ⟨⟨uid, some r, none, c⟩,
      (if mapHas r st.userSockets then
        [Action.emitToRoom (userRoom r) (.directMessage ⟨uid, some r, none, c⟩)]
      else []) ++ [.emitToSocket sid .messageSent], ?_, ?_⟩
    · simp [handleDirectMessage, hr, hc]
    · cases hon : mapHas r st.userSockets <;> simp [Action.isPersist]
  · refine ⟨⟨uid, none, some gid, c⟩,
      [.emitToRoom (groupRoom gid) (.groupMessage ⟨uid, none, some gid, c⟩),
       .emitToSocket sid .messageSent], ?_, ?_⟩
    · simp [handleGroupMessage, hgid, hc, hfind, hm]
    · simp [Action.isPersist]

/-- C3 witness: concrete failed persists on both paths. -/
theorem c3_persist_before_fanout_witness :
    handleDirectMessage stB "b" 1 (some "r") (some "hi") false =
      (stB, [.emitToSocket 1 (.errorMsg "Failed to send message")]) ∧
    handleGroupMessage stB "b" 1 (some "g") (some "hi") false =
      (stB, [.emitToSocket 1 (.errorMsg "Failed to send group message")]) := by
  have h := c3_persist_before_fanout stB "b" 1 "r" "hi" "g" groupB
    (by decide) (by decide) (by decide) (by decide) (by decide)
  exact ⟨h.1, h.2.1⟩

theorem addMember_gid (g : Group) (u : UserId) : (g.addMember u).gid = g.gid := by
  unfold Group.addMember
  split <;> rfl

theorem isMember_false_not_mem {g : Group} {u : UserId}
    (hm : g.isMember u = false) : u ∉ g.members := by
  have h1 : ∀ x ∈ g.members, ¬ x = u := by simpa [Group.isMember] using hm
  exact fun hmem => h1 u hmem rfl

theorem addMember_members {g : Group} {u : UserId}
    (hm : g.isMember u = false) : (g.addMember u).members = g.members ++ [u] := by
  unfold Group.addMember
  rw [if_neg (by simp [hm])]

theorem addMember_isMember (g : Group) (u : UserId) :
    (g.addMember u).isMember u = true := by
  unfold Group.addMember
  split
  · assumption
  · simp [Group.isMember]

theorem findGroup_after_join (sid : SocketId) {st : ServerState}
    {uid : UserId} {gid : String} {g : Group}
    (hgid : gid.isEmpty = false) (hfind : findGroup st gid = some g)
    (hm : g.isMember uid = false) :
    findGroup (handleJoinGroup st uid sid (some gid)).1 gid =
      some (g.addMember uid) := by
  simp only [handleJoinGroup, hgid, Bool.false_eq_true, if_false, hfind]
  rw [if_neg (by simp [hm])]
  exact findGroup_updateGroup hfind (addMember_gid g uid)

theorem groupRoom_inj {a b : GroupId} (h : groupRoom a = groupRoom b) : a = b := by
  have hd : ("group:" ++ a).data = ("group:" ++ b).data := congrArg String.data h
  rw [String.data_append, String.data_append] at hd
  have h2 := List.append_cancel_left hd
  cases a with
  | mk da =>
    cases b with
    | mk db => exact congrArg String.mk h2

/-- All inbound events of the service, tagged with the issuing user and
socket, for reasoning about what later traffic does to earlier state. -/
inductive InEvent where
  | connectEv (u : UserId) (s : SocketId)
  | disconnectEv (u : UserId) (s : SocketId)
  | directMessageEv (u : UserId) (s : SocketId) (r c : Option String) (saveOk : Bool)
  | groupMessageEv (u : UserId) (s : SocketId) (g c : Option String) (saveOk : Bool)
  | joinGroupEv (u : UserId) (s : SocketId) (g : Option String)
  | leaveGroupEv (u : UserId) (s : SocketId) (g : Option String)
  | typingIndicatorEv (u : UserId) (s : SocketId) (r : Option String) (f : Option Bool)
  | groupTypingIndicatorEv (u : UserId) (s : SocketId) (g : Option String) (f : Option Bool)
deriving Repr, DecidableEq

/-- Route an inbound event to its handler. -/
def dispatch (st : ServerState) : InEvent → ServerState × List Action
  | .connectEv u s => handleConnect st u s
  | .disconnectEv u s => handleDisconnect st u s
  | .directMessageEv u s r c ok => handleDirectMessage st u s r c ok
  | .groupMessageEv u s g c ok => handleGroupMessage st u s g c ok
  | .joinGroupEv u s g => handleJoinGroup st u s g
  | .leaveGroupEv u s g => handleLeaveGroup st u s g
  | .typingIndicatorEv u s r f => handleTyping st u s r f
  | .groupTypingIndicatorEv u s g f => handleGroupTyping st u s g f

/-- Process a list of inbound events in order. -/
def dispatchList (st : ServerState) : List InEvent → ServerState
  | [] => st
  | e :: es => dispatchList (dispatch st e).1 es

/-- The only events that can remove socket `s` from group `gid`'s room:
the socket's own disconnect (`socket.leave` on close is implicit in the
transport) and a leave of that very group issued on that very socket
(`socket.leave` in the leave handler). -/
def unsubscribes (e : InEvent) (s : SocketId) (gid : GroupId) : Bool :=
  match e with
  | .disconnectEv _ s2 => s2 == s
  | .leaveGroupEv _ s2 g2 => s2 == s && g2 == some gid
  | _ => false

theorem subs_handleDirectMessage (st : ServerState) (u : UserId) (s : SocketId)
    (r c : Option String) (ok : Bool) :
    (handleDirectMessage st u s r c ok).1.subscriptions = st.subscriptions := by
  cases r <;> cases c <;> cases ok <;> simp [handleDirectMessage] <;> split <;> rfl

theorem subs_handleGroupMessage (st : ServerState) (u : UserId) (s : SocketId)
    (g c : Option String) (ok : Bool) :
    (handleGroupMessage st u s g c ok).1.subscriptions = st.subscriptions := by
  cases g with
  | none => cases c <;> rfl
  | some gv =>
    cases c with
    | none => rfl
    | some cv =>
      simp only [handleGroupMessage]
      split
      · rfl
      · rcases hf : findGroup st gv with _ | gr <;> simp [hf]
        split
        · cases ok <;> rfl
        · rfl

theorem subs_handleJoinGroup (st : ServerState) (u : UserId) (s : SocketId)
    (g : Option String) :
    ∃ t, (handleJoinGroup st u s g).1.subscriptions = st.subscriptions ++ t := by
  cases g with
  | none => exact ⟨[], by simp [handleJoinGroup]⟩
  | some gv =>
    by_cases he : gv.isEmpty
    · exact ⟨[], by simp [handleJoinGroup, he]⟩
    · rcases hf : findGroup st gv with _ | gr
      · exact ⟨[], by simp [handleJoinGroup, he, hf]⟩
      · by_cases hm : gr.isMember u
        · exact ⟨[], by simp [handleJoinGroup, he, hf, hm]⟩
        · exact ⟨[(s, groupRoom gv)],
            by simp [handleJoinGroup, he, hf, hm, updateGroup]⟩

theorem mem_subs_handleLeaveGroup (st : ServerState) (u : UserId)
    (s2 : SocketId) (g : Option String) (s : SocketId) (gid : GroupId)
    (hmem : (s, groupRoom gid) ∈ st.subscriptions)
    (hrem : ¬ (s2 = s ∧ g = some gid)) :
    (s, groupRoom gid) ∈ (handleLeaveGroup st u s2 g).1.subscriptions := by
  cases g with
  | none => simpa [handleLeaveGroup] using hmem
  | some gv =>
    by_cases he : gv.isEmpty
    · simpa [handleLeaveGroup, he] using hmem
    · rcases hf : findGroup st gv with _ | gr
      · simpa [handleLeaveGroup, he, hf] using hmem
      · by_cases hm : gr.isMember u
        · by_cases hcr : gr.creator = u ∧ gr.members.length > 1
          · simpa [handleLeaveGroup, he, hf, hm, hcr] using hmem
          · have hne : ¬ ((s, groupRoom gid) = (s2, groupRoom gv)) := by
              intro hpair
              have hs : s = s2 := congrArg Prod.fst hpair
              have hr : groupRoom gid = groupRoom gv := congrArg Prod.snd hpair
              exact hrem ⟨hs.symm, by rw [groupRoom_inj hr]⟩
            by_cases hz : (gr.removeMember u).members.length = 0
            · simp [handleLeaveGroup, he, hf, hm, hcr, hz, deleteGroup,
                updateGroup, List.mem_filter]
              exact ⟨hmem, by simpa [bne] using hne⟩
            · simp [handleLeaveGroup, he, hf, hm, hcr, hz, updateGroup,
                List.mem_filter]
              exact ⟨hmem, by simpa [bne] using hne⟩
        · simpa [handleLeaveGroup, he, hf, hm] using hmem

theorem dispatch_preserves_sub (st : ServerState) (e : InEvent) (s : SocketId)
    (gid : GroupId) (hmem : (s, groupRoom gid) ∈ st.subscriptions)
    (hrem : unsubscribes e s gid = false) :
    (s, groupRoom gid) ∈ (dispatch st e).1.subscriptions := by
  cases e with
  | connectEv u s2 =>
      simp only [dispatch, handleConnect, List.mem_append]
      exact Or.inl (Or.inl hmem)
  | disconnectEv u s2 =>
      have hs : ¬ (s2 = s) := by simpa [unsubscribes] using hrem
      simp only [dispatch, handleDisconnect]
      refine List.mem_filter.mpr ⟨hmem, ?_⟩
      simpa [bne] using fun h => hs h.symm
  | directMessageEv u s2 r c ok =>
      simp only [dispatch]
      rw [subs_handleDirectMessage]
      exact hmem
  | groupMessageEv u s2 g c ok =>
      simp only [dispatch]
      rw [subs_handleGroupMessage]
      exact hmem
  | joinGroupEv u s2 g =>
      simp only [dispatch]
      obtain ⟨t, ht⟩ := subs_handleJoinGroup st u s2 g
      rw [ht]
      exact List.mem_append.mpr (Or.inl hmem)
  | leaveGroupEv u s2 g =>
      have hr : ¬ (s2 = s ∧ g = some gid) := by
        simpa [unsubscribes] using hrem
      exact mem_subs_handleLeaveGroup st u s2 g s gid hmem hr
  | typingIndicatorEv u s2 r f =>
      cases r with
      | none => exact hmem
      | some rv =>
          by_cases he : rv.isEmpty <;> simpa [dispatch, handleTyping, he] using hmem
  | groupTypingIndicatorEv u s2 g f =>
      cases g with
      | none => exact hmem
      | some gv =>
          by_cases he : gv.isEmpty <;>
            simpa [dispatch, handleGroupTyping, he] using hmem

theorem dispatchList_preserves_sub (es : List InEvent) (st : ServerState)
    (s : SocketId) (gid : GroupId)
    (hmem : (s, groupRoom gid) ∈ st.subscriptions)
    (hrem : ∀ e ∈ es, unsubscribes e s gid = false) :
    (s, groupRoom gid) ∈ (dispatchList st es).subscriptions := by
  induction es generalizing st with
  | nil => exact hmem
  | cons e t ih =>
      exact ih (dispatch st e).1
        (dispatch_preserves_sub st e s gid hmem (hrem e (by simp)))
        (fun x hx => hrem x (by simp [hx]))

/-- State after user `u` (not a member of `groupB`) opens two live
connections, sockets 1 and 2. -/
def c4st : ServerState := (runConn stB [.conn "u" 1, .conn "u" 2]).1

/-- C4: counterexample.  With both sockets 1 and 2 of user `u` open,
a `join_group` issued on socket 1 makes `u` a member of `g`, but only
socket 1 enters the room's fan-out set: socket 2 — an equally live
connection of `u` — is not subscribed, contradicting the claim that
every live connection of the identity is included. -/
theorem c4_join_counterexample :
    openAfter [.conn "u" 1, .conn "u" 2] = [("u", 1), ("u", 2)] ∧
    (findGroup (handleJoinGroup c4st "u" 1 (some "g")).1 "g").map
      (fun g => g.isMember "u") = some true ∧
    roomSubscribers (handleJoinGroup c4st "u" 1 (some "g")).1
      (groupRoom "g") = [1] ∧
    ¬ (2 ∈ roomSubscribers (handleJoinGroup c4st "u" 1 (some "g")).1
      (groupRoom "g")) :=
  ⟨by decide, by decide, by decide, by decide⟩

/-- C4 (amended): after a successful join, the identity is a member of
the stored group and exactly the issuing connection is added to the
room's subscription set (the subscriptions grow by that single pair) —
and that connection remains included across every subsequent inbound
event until a leave of that group issued on that very connection or
that connection's disconnection; a user's other connections are not
subscribed by the join and gain the room subscription only when they
connect, since every fresh connection is subscribed to all rooms of
groups its identity belongs to. -/
theorem c4_join_subscribes_issuing_socket (st : ServerState) (uid : UserId)
    (sid : SocketId) (gid : String) (g : Group)
    (hgid : gid.isEmpty = false) (hfind : findGroup st gid = some g)
    (hm : g.isMember uid = false) :
    findGroup (handleJoinGroup st uid sid (some gid)).1 gid =
      some (g.addMember uid) ∧
    (g.addMember uid).isMember uid = true ∧
    (handleJoinGroup st uid sid (some gid)).1.subscriptions =
      st.subscriptions ++ [(sid, groupRoom gid)] ∧
    (sid, groupRoom gid) ∈ (handleJoinGroup st uid sid (some gid)).1.subscriptions ∧
    (∀ st2 u2 s2 g2, g2 ∈ st2.groups → g2.isMember u2 = true →
      (s2, groupRoom g2.gid) ∈ (handleConnect st2 u2 s2).1.subscriptions) ∧
    (∀ es, (∀ e ∈ es, unsubscribes e sid gid = false) →
      (sid, groupRoom gid) ∈
        (dispatchList (handleJoinGroup st uid sid (some gid)).1 es).subscriptions) := by
  refine ⟨findGroup_after_join sid hgid hfind hm, addMember_isMember g uid,
    ?_, ?_, ?_, ?_⟩
  · simp [handleJoinGroup, hgid, hfind, hm, updateGroup]
  · simp [handleJoinGroup, hgid, hfind, hm, updateGroup]
  · intro st2 u2 s2 g2 hmem hm2
    simp only [handleConnect, joinUserGroups, List.mem_append, List.mem_map,
      List.mem_filter]
    right
    exact ⟨g2, ⟨hmem, hm2⟩, rfl⟩
  · intro es hes
    refine dispatchList_preserves_sub es _ sid gid ?_ hes
    simp [handleJoinGroup, hgid, hfind, hm, updateGroup]

/-- C4 witness: user `u` joins `groupB` from socket 5; the subscription
survives a later message, a leave of the same group issued on another
socket, and another socket's disconnect. -/
theorem c4_join_subscribes_issuing_socket_witness :
    findGroup (handleJoinGroup stB "u" 5 (some "g")).1 "g" =
      some (groupB.addMember "u") ∧
    (5, groupRoom "g") ∈ (handleJoinGroup stB "u" 5 (some "g")).1.subscriptions ∧
    (5, groupRoom "g") ∈
      (dispatchList (handleJoinGroup stB "u" 5 (some "g")).1
        [.directMessageEv "b" 9 (some "u") (some "yo") true,
         .leaveGroupEv "b" 9 (some "g"),
         .disconnectEv "b" 9]).subscriptions := by
  have h := c4_join_subscribes_issuing_socket stB "u" 5 "g" groupB
    (by decide) (by decide) (by decide)
  exact ⟨h.1, h.2.2.2.1, h.2.2.2.2.2
    [.directMessageEv "b" 9 (some "u") (some "yo") true,
     .leaveGroupEv "b" 9 (some "g"),
     .disconnectEv "b" 9] (by decide)⟩

/-- C5: leaving as the creator while other members remain yields only
the creator-cannot-leave error (a state conflict) with the state
unchanged; leaving as the last remaining member removes the group from
the store and the handler's action list contains exactly one global
`group_deleted` broadcast. -/
theorem c5_leave_group (st : ServerState) (uid : UserId) (sid : SocketId)
    (gid : String) (g : Group)
    (hgid : gid.isEmpty = false) (hfind : findGroup st gid = some g) :
    (g.isMember uid = true → g.creator = uid → g.members.length > 1 →
      handleLeaveGroup st uid sid (some gid) =
        (st, [.emitToSocket sid (.errorMsg
          "Group creator cannot leave. Transfer ownership or delete the group.")])) ∧
    (g.members = [uid] →
      (handleLeaveGroup st uid sid (some gid)).2 =
        [.emitGlobal (.groupDeleted gid),
         .emitToSocket sid (.groupLeft gid g.name)] ∧
      findGroup (handleLeaveGroup st uid sid (some gid)).1 gid = none ∧
      ((handleLeaveGroup st uid sid (some gid)).2.filter
        (fun a => a == .emitGlobal (.groupDeleted gid))).length = 1) := by
  constructor
  · intro hmem hcr hlen
    simp [handleLeaveGroup, hgid, hfind, hmem, hcr, hlen]
  · intro hmem
    have hismem : g.isMember uid = true := by simp [Group.isMember, hmem]
    have hcreator : ¬ (g.creator = uid ∧ g.members.length > 1) := by
      rintro ⟨-, hlen⟩
      rw [hmem] at hlen
      simp at hlen
    have hrem : (g.removeMember uid).members = [] := by
      simp [Group.removeMember, hmem]
    refine ⟨?_, ?_, ?_⟩ <;>
      simp [handleLeaveGroup, hgid, hfind, hismem, hcreator, hrem,
        findGroup_deleteGroup]

/-- A group whose creator `c` has a second member `b`. -/
def groupC : Group := ⟨"h", "H", "d", "c", ["c", "b"], 0⟩

/-- A group whose sole member is `u` (creator `w` already left). -/
def groupL : Group := ⟨"k", "K", "d", "w", ["u"], 0⟩

/-- Store holding `groupC` and `groupL`. -/
def stCL : ServerState := ⟨[], [], [groupC, groupL], [], []⟩

/-- C5 witness: creator `c` blocked from leaving `groupC`; last member
`u` leaving `groupL` deletes it with one `group_deleted` broadcast. -/
theorem c5_leave_group_witness :
    handleLeaveGroup stCL "c" 1 (some "h") =
      (stCL, [.emitToSocket 1 (.errorMsg
        "Group creator cannot leave. Transfer ownership or delete the group.")]) ∧
    (handleLeaveGroup stCL "u" 2 (some "k")).2 =
      [.emitGlobal (.groupDeleted "k"), .emitToSocket 2 (.groupLeft "k" "K")] ∧
    findGroup (handleLeaveGroup stCL "u" 2 (some "k")).1 "k" = none :=
  ⟨(c5_leave_group stCL "c" 1 "h" groupC (by decide) (by decide)).1
      (by decide) (by decide) (by decide),
   ((c5_leave_group stCL "u" 2 "k" groupL (by decide) (by decide)).2
      (by decide)).1,
   ((c5_leave_group stCL "u" 2 "k" groupL (by decide) (by decide)).2
      (by decide)).2.1⟩

/-- C6: joining the same group twice from the same identity: the first
join adds the identity (membership count grows by exactly one), the
second join returns only the already-a-member error and leaves the
state of the first join unchanged. -/
theorem c6_join_idempotence (st : ServerState) (uid : UserId)
    (sid1 sid2 : SocketId) (gid : String) (g : Group)
    (hgid : gid.isEmpty = false) (hfind : findGroup st gid = some g)
    (hm : g.isMember uid = false) :
    (handleJoinGroup (handleJoinGroup st uid sid1 (some gid)).1 uid sid2
        (some gid)).2 =
      [.emitToSocket sid2 (.errorMsg "You are already a member of this group")] ∧
    (handleJoinGroup (handleJoinGroup st uid sid1 (some gid)).1 uid sid2
        (some gid)).1 =
      (handleJoinGroup st uid sid1 (some gid)).1 ∧
    findGroup (handleJoinGroup st uid sid1 (some gid)).1 gid =
      some (g.addMember uid) ∧
    (g.addMember uid).members.length = g.members.length + 1 := by
  have hfind1 := findGroup_after_join sid1 hgid hfind hm
  have hmem1 := addMember_isMember g uid
  refine ⟨?_, ?_, hfind1, ?_⟩
  · generalize hst1 : (handleJoinGroup st uid sid1 (some gid)).1 = st1 at hfind1 ⊢
    simp [handleJoinGroup, hgid, hfind1, hmem1]
  · generalize hst1 : (handleJoinGroup st uid sid1 (some gid)).1 = st1 at hfind1 ⊢
    simp [handleJoinGroup, hgid, hfind1, hmem1]
  · rw [addMember_members hm]
    simp

/-- C6 witness: user `u` joins `groupB` twice. -/
theorem c6_join_idempotence_witness :
    (handleJoinGroup (handleJoinGroup stB "u" 1 (some "g")).1 "u" 2
        (some "g")).2 =
      [.emitToSocket 2 (.errorMsg "You are already a member of this group")] ∧
    (groupB.addMember "u").members.length = groupB.members.length + 1 := by
  have h := c6_join_idempotence stB "u" 1 2 "g" groupB
    (by decide) (by decide) (by decide)
  exact ⟨h.1, h.2.2.2⟩

end ChatApp

namespace ChatApp

/-- Store knowing only user `a`; recipient `r` does not exist. -/
def stA : ServerState := ⟨[], [], [], [], ["a"]⟩

/-- C7: counterexample.  The recipient id `r` refers to no existing
user, yet the direct message is persisted and acknowledged to the
sender with no error event — the dispatcher never checks recipient
existence, contradicting the claimed NotFound rejection. -/
theorem c7_direct_message_counterexample :
    ¬ ("r" ∈ stA.users) ∧
    handleDirectMessage stA "a" 1 (some "r") (some "hi") true =
      ({ stA with messages := [⟨"a", some "r", none, "hi"⟩] },
       [.persist ⟨"a", some "r", none, "hi"⟩, .emitToSocket 1 .messageSent]) :=
  ⟨by decide, by decide⟩

/-- C7 (amended): the direct-message path performs no recipient
existence check at all: for any recipient id (well-formed, with a
successful save) the record is persisted and the sender is acked; the
only difference the recipient makes is that fan-out to the recipient's
personal room happens exactly when the registry currently has the
recipient online. -/
theorem c7_direct_message_no_existence_check (st : ServerState) (uid : UserId)
    (sid : SocketId) (r c : String)
    (hr : r.isEmpty = false) (hc : c.isEmpty = false) :
    (mapHas r st.userSockets = false →
      handleDirectMessage st uid sid (some r) (some c) true =
        ({ st with messages := st.messages ++ [⟨uid, some r, none, c⟩] },
         [.persist ⟨uid, some r, none, c⟩, .emitToSocket sid .messageSent])) ∧
    (mapHas r st.userSockets = true →
      handleDirectMessage st uid sid (some r) (some c) true =
        ({ st with messages := st.messages ++ [⟨uid, some r, none, c⟩] },
         [.persist ⟨uid, some r, none, c⟩,
          .emitToRoom (userRoom r) (.directMessage ⟨uid, some r, none, c⟩),
          .emitToSocket sid .messageSent])) := by
  constructor <;> intro hon <;> simp [handleDirectMessage, hr, hc, hon]

/-- C7 witness: offline, nonexistent recipient `x` — persisted and
acked anyway. -/
theorem c7_direct_message_no_existence_check_witness :
    handleDirectMessage stB "u" 3 (some "x") (some "yo") true =
      ({ stB with messages := stB.messages ++ [⟨"u", some "x", none, "yo"⟩] },
       [.persist ⟨"u", some "x", none, "yo"⟩, .emitToSocket 3 .messageSent]) :=
  (c7_direct_message_no_existence_check stB "u" 3 "x" "yo"
    (by decide) (by decide)).1 (by decide)

/-- C8: counterexample.  A typing indicator with a missing target id is
silently dropped — the handler emits nothing at all, so no
ValidationError event reaches the sender; and a typing indicator with a
present target but a missing boolean flag is not rejected either: it is
forwarded with the flag absent.  Both contradict the claim that every
typing event missing a required field yields a ValidationError. -/
theorem c8_typing_counterexample :
    handleTyping st0 "u" 1 none (some true) = (st0, []) ∧
    handleGroupTyping st0 "u" 1 none (some true) = (st0, []) ∧
    handleTyping st0 "u" 1 (some "r") none =
      (st0, [.emitToRoom (userRoom "r") (.typingEv "u" none)]) ∧
    handleGroupTyping st0 "u" 1 (some "g") none =
      (st0, [.emitToRoomExceptSelf (groupRoom "g") 1
        (.groupTypingEv "u" "g" none)]) :=
  ⟨rfl, rfl, rfl, rfl⟩

/-- C8 (amended): the four state-changing event kinds (direct message,
group message, join, leave) do reply with a single validation-error
event to the sender and change no state when a required field is
missing; the typing indicators instead drop the event silently when the
target id is missing (no error event, no state change, no fan-out), and
a missing boolean flag is never validated: with a (truthy) target
present and the flag absent, the indicator is forwarded with the flag
absent. -/
theorem c8_missing_field_validation (st : ServerState) (uid : UserId)
    (sid : SocketId) (x : Option String) (tgt : String) (flag : Option Bool)
    (saveOk : Bool) :
    handleDirectMessage st uid sid none x saveOk =
      (st, [.emitToSocket sid
        (.errorMsg "Recipient ID and content are required")]) ∧
    handleDirectMessage st uid sid x none saveOk =
      (st, [.emitToSocket sid
        (.errorMsg "Recipient ID and content are required")]) ∧
    handleGroupMessage st uid sid none x saveOk =
      (st, [.emitToSocket sid (.errorMsg "Group ID and content are required")]) ∧
    handleGroupMessage st uid sid x none saveOk =
      (st, [.emitToSocket sid (.errorMsg "Group ID and content are required")]) ∧
    handleJoinGroup st uid sid none =
      (st, [.emitToSocket sid (.errorMsg "Group ID is required")]) ∧
    handleLeaveGroup st uid sid none =
      (st, [.emitToSocket sid (.errorMsg "Group ID is required")]) ∧
    handleTyping st uid sid none flag = (st, []) ∧
    handleGroupTyping st uid sid none flag = (st, []) ∧
    handleTyping st uid sid (some tgt) none =
      (st, if tgt.isEmpty then []
        else [.emitToRoom (userRoom tgt) (.typingEv uid none)]) ∧
    handleGroupTyping st uid sid (some tgt) none =
      (st, if tgt.isEmpty then []
        else [.emitToRoomExceptSelf (groupRoom tgt) sid
          (.groupTypingEv uid tgt none)]) := by
  refine ⟨?_, ?_, ?_, ?_, rfl, rfl, rfl, rfl, ?_, ?_⟩
  · cases x <;> rfl
  · cases x <;> rfl
  · cases x <;> rfl
  · cases x <;> rfl
  · by_cases h : tgt.isEmpty <;> simp [handleTyping, h]
  · by_cases h : tgt.isEmpty <;> simp [handleGroupTyping, h]

/-- Socket 2 is subscribed to `groupB`'s room; the typing sender is not
a member of the group. -/
def stT : ServerState := ⟨[], [(2, "group:g")], [groupB], [], []⟩

/-- C9: counterexample.  User `u` is not a member of group `g`, yet
the group typing indicator sent on socket 1 is forwarded and delivered
to subscriber socket 2 — no membership check guards the forwarding,
contradicting the claim that non-members' indicators are rejected. -/
theorem c9_group_typing_counterexample :
    groupB.isMember "u" = false ∧
    handleGroupTyping stT "u" 1 (some "g") (some true) =
      (stT, [.emitToRoomExceptSelf (groupRoom "g") 1
        (.groupTypingEv "u" "g" (some true))]) ∧
    resolveTargets stT (.emitToRoomExceptSelf (groupRoom "g") 1
      (.groupTypingEv "u" "g" (some true))) = [2] :=
  ⟨by decide, by decide, by decide⟩

/-- C9 (amended): a group typing indicator with a present group id is
always forwarded, regardless of the sender's membership, to exactly the
room's subscribed connections minus the sender's own socket (which is
never among the resolved targets). -/
theorem c9_group_typing_no_membership_check (st : ServerState) (uid : UserId)
    (sid : SocketId) (gid : String) (flag : Option Bool)
    (hgid : gid.isEmpty = false) :
    handleGroupTyping st uid sid (some gid) flag =
      (st, [.emitToRoomExceptSelf (groupRoom gid) sid
        (.groupTypingEv uid gid flag)]) ∧
    resolveTargets st (.emitToRoomExceptSelf (groupRoom gid) sid
      (.groupTypingEv uid gid flag)) =
      (roomSubscribers st (groupRoom gid)).filter (fun t => t != sid) ∧
    ¬ (sid ∈ resolveTargets st (.emitToRoomExceptSelf (groupRoom gid) sid
      (.groupTypingEv uid gid flag))) := by
  refine ⟨?_, rfl, ?_⟩
  · simp [handleGroupTyping, hgid]
  · simp [resolveTargets, List.mem_filter]

/-- C9 witness: member `b` typing in `groupB` from socket 7; forwarded,
and socket 7 is excluded from the delivery set. -/
theorem c9_group_typing_no_membership_check_witness :
    handleGroupTyping stT "b" 7 (some "g") (some false) =
      (stT, [.emitToRoomExceptSelf (groupRoom "g") 7
        (.groupTypingEv "b" "g" (some false))]) ∧
    ¬ (7 ∈ resolveTargets stT (.emitToRoomExceptSelf (groupRoom "g") 7
      (.groupTypingEv "b" "g" (some false)))) :=
  ⟨(c9_group_typing_no_membership_check stT "b" 7 "g" (some false)
      (by decide)).1,
   (c9_group_typing_no_membership_check stT "b" 7 "g" (some false)
      (by decide)).2.2⟩

end ChatApp
